import Mathlib

/-!
Verification development for the twitter_downloader_bot media pipeline
(src/main.py).  The Python source is shallowly embedded: the network
collaborators (t.co redirect resolution, the vxtwitter metadata scrape,
the photo HEAD probe, the streaming video size probe, and the one
fallible Telegram video send) are abstracted as an oracle record `Net`;
the shared `context.bot_data` dictionary becomes an `Option Stats`
(`none` models the `stats` key being absent); messages handed to the
Telegram transport become an explicit `Sent` list; Python exceptions
become `Except PyErr`.  Every definition follows the corresponding
Python function line by line.
-/

deriving instance DecidableEq for Except

namespace TwitterBot

/-- Counter names accepted by `increase_context_counter` (the
`ContextCounters` type alias in the source). -/
inductive ContextCounters where
  | media_downloaded
  | messages_handled
  | commands_handled
deriving DecidableEq, Repr

/-- Value stored at `context.bot_data['stats']`: three integer counters,
exactly the keys written by `init_stats`. -/
structure Stats where
  media_downloaded : Nat
  messages_handled : Nat
  commands_handled : Nat
deriving DecidableEq, Repr

/-- State of `context.bot_data` as far as this program reads it: `none`
models `'stats' not in context.bot_data`. -/
abbrev BotData := Option Stats

/-- Embedding of `init_stats`: store a fresh all-zero stats record. -/
def init_stats : Stats :=
  { media_downloaded := 0, messages_handled := 0, commands_handled := 0 }

/-- Observer reading one named counter out of a stats record. -/
def counterVal (s : Stats) : ContextCounters → Nat
  | .media_downloaded => s.media_downloaded
  | .messages_handled => s.messages_handled
  | .commands_handled => s.commands_handled

/-- Embedding of `increase_context_counter`: if the `stats` key is absent
run `init_stats`, then add 1 to the named counter.  The returned record is
the new value of `context.bot_data['stats']`. -/
def increase_context_counter (bd : BotData) (c : ContextCounters) : Stats :=
  let s := bd.getD init_stats
  match c with
  | .media_downloaded => { s with media_downloaded := s.media_downloaded + 1 }
  | .messages_handled => { s with messages_handled := s.messages_handled + 1 }
  | .commands_handled => { s with commands_handled := s.commands_handled + 1 }

/-- One entry of the `media_extended` array returned by the metadata
service: a dynamic dict in the source, read through the keys `type`,
`url` and `thumbnail_url`. -/
structure MediaItem where
  type : String
  url : String
  thumbnail_url : String
deriving DecidableEq, Repr

/-- Python exceptions that the embedded code can raise or catch. -/
inductive PyErr where
  | httpError
  | keyError
  | connError
  | attrError
  | typeError
deriving DecidableEq, Repr

/-- Outcome of `requests.head(url)` as observed by `get_photo_url`: a
response with an HTTP status, or a connection-level failure raised by
`requests` itself. -/
inductive HeadOutcome where
  | response (status : Nat)
  | connError
deriving DecidableEq, Repr

/-- Outcome of `requests.get(url, stream=True)` as observed by the video
senders: a response with an HTTP status and an optional numeric
`Content-Length` header (`none` models the header being absent, which the
source surfaces as `KeyError`), or a connection-level failure. -/
inductive SizeOutcome where
  | response (status : Nat) (contentLength : Option Nat)
  | connError
deriving DecidableEq, Repr

/-- Network / transport oracle: the external collaborators of the
pipeline.  `unshorten` is `requests.get('https://' + link).url` under the
bare `except` (`none` = any failure); `scrape` is the outcome of
`scrape_media` (HTTPError from `raise_for_status`, KeyError or a
connection error, or the parsed `media_extended` list); `sendVideo` is
whether `reply_video` succeeds (`false` = `telegram.error.BadRequest`). -/
structure Net where
  unshorten : String → Option String
  scrape : String → Except PyErr (List MediaItem)
  photoProbe : String → HeadOutcome
  videoProbe : String → SizeOutcome
  sendVideo : String → Bool

/-- Match a literal character sequence at the head of the input, returning
the remainder on success. -/
def matchLit : List Char → List Char → Option (List Char)
  | [], s => some s
  | _ :: _, [] => none
  | c :: cs, d :: ds => if c = d then matchLit cs ds else none

/-- Greedy `[0-9]{1,20}` with nothing after it in the pattern: take at
most 20 digits from the head of the run, fail if there is none. -/
def digitsThen (s : List Char) : Option (List Char × List Char) :=
  let ds := (s.takeWhile Char.isDigit).take 20
  if ds.isEmpty then none else some (ds, s.drop ds.length)

/-- Continuation after the `(?:web|status(?:es)?)` word: a `/` followed by
the captured digit group. -/
def afterWord : Option (List Char) → Option (List Char × List Char)
  | some ('/' :: s2) => digitsThen s2
  | _ => none

/-- Tail of the tweet-id pattern `/(?:web|status(?:es)?)/([0-9]{1,20})`,
with Python's backtracking order for the alternation (`web`, then the
greedy `statuses`, then `status`). -/
def matchIdTail : List Char → Option (List Char × List Char)
  | '/' :: s1 =>
      afterWord (matchLit "web".toList s1) <|>
      afterWord (matchLit "statuses".toList s1) <|>
      afterWord (matchLit "status".toList s1)
  | _ => none

/-- Greedy `.{1,15}` followed by `matchIdTail`: consume between 1 and
`fuel` non-newline characters, preferring longer consumption first, which
is Python's greedy bounded-repetition order. -/
def matchDots : Nat → List Char → Option (List Char × List Char)
  | 0, _ => none
  | _ + 1, [] => none
  | fuel + 1, c :: cs =>
      if c = '\n' then none
      else matchDots fuel cs <|> matchIdTail cs

/-- Try the whole tweet-id pattern
`(?:twitter|x)\.com/.{1,15}/(?:web|status(?:es)?)/([0-9]{1,20})`
at the current position; on success return the captured digit group and
the remaining input after the match. -/
def matchTweetAt (s : List Char) : Option (List Char × List Char) :=
  match matchLit "twitter.com/".toList s <|> matchLit "x.com/".toList s with
  | none => none
  | some s1 => matchDots 15 s1

/-- Scanner for `re.findall` over the tweet-id pattern: try the pattern at
every position from left to right, emit the captured group of every
non-overlapping match, and resume after each match.  The fuel is the
input length, which bounds the number of single-character advances. -/
def findTweetIdsAux : Nat → List Char → List String
  | 0, _ => []
  | fuel + 1, s =>
      match s with
      | [] => []
      | _ :: cs =>
        match matchTweetAt s with
        | some (ds, rest) => String.mk ds :: findTweetIdsAux fuel rest
        | none => findTweetIdsAux fuel cs

/-- Embedding of
`re.findall(r"(?:twitter|x)\.com/.{1,15}/(?:web|status(?:es)?)/([0-9]{1,20})", text)`. -/
def findTweetIds (s : String) : List String :=
  findTweetIdsAux s.length s.toList

/-- Scanner for `re.findall(r"t\.co/[a-zA-Z0-9]+", text)`: whole matches
of the t.co pattern, greedy alphanumeric run. -/
def findTcoAux : Nat → List Char → List String
  | 0, _ => []
  | fuel + 1, s =>
      match s with
      | [] => []
      | _ :: cs =>
        match matchLit "t.co/".toList s with
        | some r =>
            let run := r.takeWhile Char.isAlphanum
            if run.isEmpty then findTcoAux fuel cs
            else String.mk ("t.co/".toList ++ run) :: findTcoAux fuel (r.drop run.length)
        | none => findTcoAux fuel cs

/-- Embedding of the t.co findall on a whole string. -/
def findTco (s : String) : List String := findTcoAux s.length s.toList

/-- The `unshortened_links` accumulator built by `extract_tweet_ids`: each
resolvable t.co match appends a newline and the resolved URL; failures
are silently skipped. -/
def unshortened_links (net : Net) (text : String) : String :=
  (findTco text).foldl
    (fun acc link =>
      match net.unshorten link with
      | some u => acc ++ "\n" ++ u
      | none => acc) ""

/-- Order-preserving first-occurrence deduplication, the embedding of
`list(dict.fromkeys(tweet_ids))`.  `seen` is the set of keys already in
the dict. -/
def dedupAux : List String → List String → List String
  | _, [] => []
  | seen, x :: xs =>
      if x ∈ seen then dedupAux seen xs else x :: dedupAux (x :: seen) xs

/-- Deduplicate keeping the first occurrence of each element. -/
def dedupFirst (l : List String) : List String := dedupAux [] l

/-- Embedding of `extract_tweet_ids`: scan `text` plus the resolved t.co
links for tweet ids, deduplicate preserving first-seen order, and return
`none` for the empty result (`return tweet_ids or None`). -/
def extract_tweet_ids (net : Net) (text : String) : Option (List String) :=
  let ids := findTweetIds (text ++ unshortened_links net text)
  let deduped := dedupFirst ids
  if deduped.isEmpty then none else some deduped

/-- Embedding of `get_media`: partition the `media_extended` list by the
`type` field into photos, gifs and videos, via three list comprehensions. -/
def get_media (tweet_media : List MediaItem) :
    List MediaItem × List MediaItem × List MediaItem :=
  (tweet_media.filter (fun m => m.type == "image"),
   tweet_media.filter (fun m => m.type == "gif"),
   tweet_media.filter (fun m => m.type == "video"))

/-- Embedding of `parsed_url._replace(query='format=jpg&name=orig').geturl()`
for the fragment-free URLs the pipeline handles: drop any existing query
string and append the fixed quality query. -/
def set_orig_query (url : String) : String :=
  String.mk (url.toList.takeWhile (fun c => c ≠ '?')) ++ "?format=jpg&name=orig"

/-- Embedding of `get_photo_url`: rewrite the query to request `orig`
quality, HEAD-probe the rewritten URL, and fall back to the original URL
when `raise_for_status` raises `requests.HTTPError` (status 4xx/5xx).
A connection-level failure of `requests.head` is not an `HTTPError`, so
the `except` clause does not catch it and it propagates to the caller. -/
def get_photo_url (net : Net) (url : String) : Except PyErr String :=
  let new_url := set_orig_query url
  match net.photoProbe new_url with
  | .connError => .error .connError
  | .response st => if 400 ≤ st ∧ st < 600 then .ok url else .ok new_url

/-- Inline-query results handed to `update.inline_query.answer`, keeping
the payload fields of the source's telegram result constructors (the
random uuid ids carry no information and are dropped). -/
inductive InlineResult where
  | photo (photo_url thumbnail_url : String)
  | gif (thumbnail_url gif_url : String)
  | video (thumbnail_url video_url title mime_type : String)
  | article (title message_text : String)
deriving DecidableEq, Repr

/-- Embedding of `get_photos` (inline mode): per photo, resolve the final
URL through `get_photo_url` — an uncaught error there aborts the whole
call — then append an `InlineQueryResultPhoto` and increment the
`media_downloaded` counter. -/
def get_photos (net : Net) :
    List MediaItem → BotData → Except PyErr (List InlineResult) × BotData
  | [], bd => (.ok [], bd)
  | p :: ps, bd =>
    match get_photo_url net p.url with
    | .error e => (.error e, bd)
    | .ok final_url =>
      let bd1 : BotData := some (increase_context_counter bd .media_downloaded)
      match get_photos net ps bd1 with
      | (.ok rest, bd2) => (.ok (.photo final_url final_url :: rest), bd2)
      | (.error e, bd2) => (.error e, bd2)

/-- Embedding of `get_gifs` (inline mode): per gif, append an
`InlineQueryResultGif` carrying the thumbnail and gif URLs and increment
the `media_downloaded` counter; no fallible call occurs. -/
def get_gifs : List MediaItem → BotData → List InlineResult × BotData
  | [], bd => ([], bd)
  | g :: gs, bd =>
    let bd1 : BotData := some (increase_context_counter bd .media_downloaded)
    let (rest, bd2) := get_gifs gs bd1
    (InlineResult.gif g.thumbnail_url g.url :: rest, bd2)

/-- Embedding of `get_videos` (inline mode): per video, probe the size
with a streaming GET.  On a successful probe with a declared length, a
video at most 20 MiB becomes an `InlineQueryResultVideo` and a larger one
the constant `Video too big` article; then the `media_downloaded` counter
is incremented.  When the probe fails (HTTP error status, missing
`Content-Length`, or connection error) the `except` clause runs
`update.effective_message.reply_text`, and in inline mode
`update.effective_message` is `None`, so that line raises an uncaught
`AttributeError` which aborts the function (skipping the counter). -/
def get_videos (net : Net) :
    List MediaItem → BotData → Except PyErr (List InlineResult) × BotData
  | [], bd => (.ok [], bd)
  | v :: vs, bd =>
    match net.videoProbe v.url with
    | .connError => (.error .attrError, bd)
    | .response st clen =>
      if 400 ≤ st ∧ st < 600 then (.error .attrError, bd)
      else
        match clen with
        | none => (.error .attrError, bd)
        | some video_size =>
          let r : InlineResult :=
            if video_size ≤ 20 * 1024 * 1024 then
              .video v.thumbnail_url v.url "Video" "video/mp4"
            else .article "Video too big!" "Video too big"
          let bd1 : BotData := some (increase_context_counter bd .media_downloaded)
          match get_videos net vs bd1 with
          | (.ok rest, bd2) => (.ok (r :: rest), bd2)
          | (.error e, bd2) => (.error e, bd2)

/-- Embedding of `get_media_for_inline`: classify the media, then fill
the result group from the first non-empty bucket only
(`if photos: ... elif gifs: ... elif videos: ...`). -/
def get_media_for_inline (net : Net) (tweet_media : List MediaItem)
    (bd : BotData) : Except PyErr (List InlineResult) × BotData :=
  let (photos, gifs, videos) := get_media tweet_media
  if ¬ photos.isEmpty then get_photos net photos bd
  else if ¬ gifs.isEmpty then
    let (r, bd1) := get_gifs gifs bd
    (.ok r, bd1)
  else if ¬ videos.isEmpty then get_videos net videos bd
  else (.ok [], bd)

/-- Message text of the `nothing found` placeholder article. -/
def nothing_found_text : String :=
  "There\x27s nothing I can get for you there!"

/-- One loop iteration of `inline_query`: scrape the tweet; any exception
is caught and logged (`except Exception`), leaving the results unchanged;
an empty `media_extended` list is only logged; otherwise the results list
is reassigned to this tweet's inline group — a failure inside
`get_media_for_inline` is caught by the same handler, keeping the old
results but keeping any counter increments already applied. -/
def inline_step (net : Net) (acc : List InlineResult × BotData)
    (tweet_id : String) : List InlineResult × BotData :=
  let (results, bd) := acc
  match net.scrape tweet_id with
  | .error _ => (results, bd)
  | .ok media =>
    if media.isEmpty then (results, bd)
    else
      match get_media_for_inline net media bd with
      | (.ok r, bd1) => (r, bd1)
      | (.error _, bd1) => (results, bd1)

/-- Embedding of `inline_query`.  An empty query returns without
answering (`.ok none`).  A query from which no id can be extracted makes
`for tweet_id in tweet_ids:` iterate over `None`, raising `TypeError`.
Otherwise the loop runs over all extracted ids, the placeholder article
is appended when the final results list is empty, `messages_handled` is
incremented, and the answer is returned. -/
def inline_query (net : Net) (query : String) (bd : BotData) :
    Except PyErr (Option (List InlineResult)) × BotData :=
  if query = "" then (.ok none, bd)
  else
    match extract_tweet_ids net query with
    | none => (.error .typeError, bd)
    | some tweet_ids =>
      let (results, bd1) := tweet_ids.foldl (inline_step net) ([], bd)
      let finalResults :=
        if results.isEmpty then
          [InlineResult.article nothing_found_text nothing_found_text]
        else results
      (.ok (some finalResults), some (increase_context_counter bd1 .messages_handled))

/-- Messages handed to the Telegram transport by the command path. -/
inductive Sent where
  | text (message : String)
  | mediaGroupDoc (urls : List String)
  | animation (url : String)
  | video (url : String)
  | deleteMessage
deriving DecidableEq, Repr

/-- Direct-link text sent when sending a video fails. -/
def video_error_text (url : String) : String :=
  "Error occurred when trying to send video. Direct link:\n" ++ url

/-- Too-large text sent by `command_send_videos`. -/
def video_too_large_text (url : String) : String :=
  "Video is too large for Telegram upload. Link:\n" ++ url

/-- URL list of the `InputMediaDocument` group built by
`command_send_photos`: each photo goes through `get_photo_url`, whose
uncaught errors abort the whole command; the `media_downloaded` counter
is incremented per photo before the group is sent. -/
def photos_doc_urls (net : Net) :
    List MediaItem → BotData → Except PyErr (List String) × BotData
  | [], bd => (.ok [], bd)
  | p :: ps, bd =>
    match get_photo_url net p.url with
    | .error e => (.error e, bd)
    | .ok u =>
      let bd1 : BotData := some (increase_context_counter bd .media_downloaded)
      match photos_doc_urls net ps bd1 with
      | (.ok us, bd2) => (.ok (u :: us), bd2)
      | (.error e, bd2) => (.error e, bd2)

/-- Embedding of `command_send_photos`: build the document group, then
send it with one `reply_media_group` call. -/
def command_send_photos (net : Net) (photos : List MediaItem)
    (bd : BotData) : Except PyErr Sent × BotData :=
  match photos_doc_urls net photos bd with
  | (.ok us, bd1) => (.ok (Sent.mediaGroupDoc us), bd1)
  | (.error e, bd1) => (.error e, bd1)

/-- Embedding of `command_send_gifs`: per gif, increment the counter and
send one animation reply. -/
def command_send_gifs : List MediaItem → BotData → List Sent × BotData
  | [], bd => ([], bd)
  | g :: gs, bd =>
    let bd1 : BotData := some (increase_context_counter bd .media_downloaded)
    let (rest, bd2) := command_send_gifs gs bd1
    (Sent.animation g.url :: rest, bd2)

/-- Embedding of `command_send_videos`: per video, probe the size; at
most 20 MiB the video is sent in-line (a `BadRequest` from `reply_video`
is caught and converted to the direct-link text), above the threshold the
too-large text with the raw URL is sent; a probe failure (HTTP error,
missing `Content-Length`, connection error) is caught and converted to
the direct-link text.  The counter is incremented after every video. -/
def command_send_videos (net : Net) :
    List MediaItem → BotData → List Sent × BotData
  | [], bd => ([], bd)
  | v :: vs, bd =>
    let msg : Sent :=
      match net.videoProbe v.url with
      | .connError => .text (video_error_text v.url)
      | .response st clen =>
        if 400 ≤ st ∧ st < 600 then .text (video_error_text v.url)
        else
          match clen with
          | none => .text (video_error_text v.url)
          | some video_size =>
            if video_size ≤ 20 * 1024 * 1024 then
              if net.sendVideo v.url then .video v.url
              else .text (video_error_text v.url)
            else .text (video_too_large_text v.url)
    let bd1 : BotData := some (increase_context_counter bd .media_downloaded)
    let (rest, bd2) := command_send_videos net vs bd1
    (msg :: rest, bd2)

/-- Body of `grab_command`'s per-tweet work: classify the scraped media
and run the three bucket senders in order, each guarded by non-emptiness;
an error from the photo sender aborts with the sends made so far lost to
the later buckets. -/
def grab_one (net : Net) (media : List MediaItem) (bd : BotData) :
    Except PyErr (List Sent) × BotData :=
  let (photos, gifs, videos) := get_media media
  let (r1, bd1) :=
    if photos.isEmpty then (Except.ok ([] : List Sent), bd)
    else
      match command_send_photos net photos bd with
      | (.ok s, b) => (.ok [s], b)
      | (.error e, b) => (.error e, b)
  match r1 with
  | .error e => (.error e, bd1)
  | .ok sent1 =>
    let (sent2, bd2) := if gifs.isEmpty then ([], bd1) else command_send_gifs gifs bd1
    let (sent3, bd3) :=
      if videos.isEmpty then ([], bd2) else command_send_videos net videos bd2
    (.ok (sent1 ++ sent2 ++ sent3), bd3)

/-- Loop of `grab_command` over the extracted tweet ids: `scrape_media`
is called outside any `try`, so its failure aborts the loop and
propagates, keeping the messages already sent and the counters already
incremented. -/
def grab_loop (net : Net) :
    List String → List Sent → BotData → Except PyErr Unit × List Sent × BotData
  | [], sent, bd => (.ok (), sent, bd)
  | tweet_id :: rest, sent, bd =>
    match net.scrape tweet_id with
    | .error e => (.error e, sent, bd)
    | .ok media =>
      match grab_one net media bd with
      | (.error e, bd1) => (.error e, sent, bd1)
      | (.ok s1, bd1) => grab_loop net rest (sent ++ s1) bd1

/-- Reply sent when the argument does not match `CORRECT_TWITTER_PATTERN`. -/
def invalid_url_text : String :=
  "That\x27s not a valid twitter URL or I couldn\x27t find any media on it"

/-- Predicate `[a-zA-Z0-9_]`. -/
def isWordChar (c : Char) : Bool := c.isAlphanum || c = '_'

/-- Tail of `CORRECT_TWITTER_PATTERN` from the domain on:
`(twitter|x)\.com\/([a-zA-Z0-9_]+)/(status|web)/\d+`. -/
def matchCorrectTail (s : List Char) : Bool :=
  match matchLit "twitter.com/".toList s <|> matchLit "x.com/".toList s with
  | none => false
  | some s1 =>
    let uname := s1.takeWhile isWordChar
    if uname.isEmpty then false
    else
      match s1.drop uname.length with
      | '/' :: r2 =>
        (match matchLit "status".toList r2 <|> matchLit "web".toList r2 with
         | some ('/' :: r4) => ¬ (r4.takeWhile Char.isDigit).isEmpty
         | _ => false)
      | _ => false

/-- Embedding of `re.match(CORRECT_TWITTER_PATTERN, url)` as a Boolean:
`http(?:s)?:\/\/(?:www)?(twitter|x)\.com\/([a-zA-Z0-9_]+)/(status|web)/\d+`
anchored at the start of the string, anything allowed after the digits.
If the optional `www` was consumed but the rest fails, Python backtracks
to the empty alternative, hence the disjunction. -/
def correct_twitter_match (url : String) : Bool :=
  match matchLit "http".toList url.toList with
  | none => false
  | some s1 =>
    let s2 := match s1 with
              | 's' :: t => t
              | t => t
    match matchLit "://".toList s2 with
    | none => false
    | some s3 =>
      match matchLit "www".toList s3 with
      | some s4 => matchCorrectTail s4 || matchCorrectTail s3
      | none => matchCorrectTail s3

/-- Embedding of `grab_command`.  A non-matching argument gets the
invalid-URL reply.  On a match, the ids are extracted; `if tweet_ids:`
sends the echo text only when ids were found, and when `extract_tweet_ids`
returned `None` the following `for` statement raises `TypeError`.  After
a completed loop the triggering message is deleted.  `commands_handled`
is incremented at the end of both non-raising paths and skipped when an
exception propagates. -/
def grab_command (net : Net) (url : String) (bd : BotData) :
    Except PyErr Unit × List Sent × BotData :=
  if correct_twitter_match url then
    match extract_tweet_ids net url with
    | none => (.error .typeError, [], bd)
    | some tweet_ids =>
      match grab_loop net tweet_ids [Sent.text ("tweet: " ++ url)] bd with
      | (.ok (), sent, bd1) =>
          (.ok (), sent ++ [Sent.deleteMessage],
           some (increase_context_counter bd1 .commands_handled))
      | (.error e, sent, bd1) => (.error e, sent, bd1)
  else
    (.ok (), [Sent.text invalid_url_text],
     some (increase_context_counter bd .commands_handled))

/-- Oracle with no reachable network effects, used for concrete runs. -/
def net0 : Net where
  unshorten := fun _ => none
  scrape := fun _ => .ok []
  photoProbe := fun _ => .response 200
  videoProbe := fun _ => .response 200 (some 0)
  sendVideo := fun _ => true

/-- Sample photo descriptor. -/
def photoA : MediaItem := { type := "image", url := "pa", thumbnail_url := "pat" }

/-- Second sample photo descriptor. -/
def photoB : MediaItem := { type := "image", url := "pb", thumbnail_url := "pbt" }

/-- Sample video descriptor. -/
def vidV : MediaItem := { type := "video", url := "vu", thumbnail_url := "vt" }

/-- Video descriptor whose URL should appear in too-large fallbacks. -/
def vidBig : MediaItem := { type := "video", url := "http://v/big.mp4", thumbnail_url := "vt" }

/-- Oracle where tweet 1 has photo `pa`, tweet 2 has photo `pb`, every
other scrape fails, and the photo quality probe always answers 404. -/
def netC1 : Net where
  unshorten := fun _ => none
  scrape := fun id =>
    if id = "1" then .ok [photoA] else if id = "2" then .ok [photoB] else .error .httpError
  photoProbe := fun _ => .response 404
  videoProbe := fun _ => .connError
  sendVideo := fun _ => true

/-- Oracle where tweet 1 has photo `pa`, tweet 2 has no media, every other
scrape fails, and the photo quality probe always answers 404. -/
def netL : Net where
  unshorten := fun _ => none
  scrape := fun id =>
    if id = "1" then .ok [photoA] else if id = "2" then .ok [] else .error .httpError
  photoProbe := fun _ => .response 404
  videoProbe := fun _ => .connError
  sendVideo := fun _ => true

/-- Oracle whose photo probe fails at the connection level. -/
def netConn : Net where
  unshorten := fun _ => none
  scrape := fun _ => .ok []
  photoProbe := fun _ => .connError
  videoProbe := fun _ => .connError
  sendVideo := fun _ => true

/-- Oracle whose photo probe answers 404. -/
def netProbe404 : Net := { netConn with photoProbe := fun _ => .response 404 }

/-- Oracle whose video size probe reports a fixed content length. -/
def netSz (n : Nat) : Net where
  unshorten := fun _ => none
  scrape := fun _ => .ok [vidV]
  photoProbe := fun _ => .response 200
  videoProbe := fun _ => .response 200 (some n)
  sendVideo := fun _ => true

/-- Oracle reporting `vidBig` one byte above the 20 MiB threshold. -/
def netBig : Net where
  unshorten := fun _ => none
  scrape := fun _ => .ok [vidBig]
  photoProbe := fun _ => .response 200
  videoProbe := fun _ => .response 200 (some (20 * 1024 * 1024 + 1))
  sendVideo := fun _ => true

/-- Substring test used to state whether a delivered text carries a URL. -/
def strContains (hay needle : String) : Bool :=
  hay.toList.tails.any (fun t => needle.toList.isPrefixOf t)

example : findTweetIds "check https://x.com/alice/status/123456" = ["123456"] := by decide

example : extract_tweet_ids net0 "check https://x.com/alice/status/123456" = some ["123456"] := by decide

example : extract_tweet_ids net0 "hello" = none := by decide

example : findTweetIds "x.com/a/status/9 x.com/a/status/1 x.com/a/status/2" = ["9", "1", "2"] := by decide

example : findTweetIds "twitter.com/bob/statuses/42 and twitter.com/bob/statuses/42" = ["42", "42"] := by decide

example : extract_tweet_ids net0 "twitter.com/bob/statuses/42 and twitter.com/bob/statuses/42" = some ["42"] := by decide

example : correct_twitter_match "https://x.com/a/status/5" = true := by decide

example : correct_twitter_match "https://www.twitter.com/a/status/5" = false := by decide

example : correct_twitter_match "http://twitter.com/someone/web/123 trailing" = true := by decide

example : correct_twitter_match "https://x.com/a/statuses/5" = false := by decide

/-- Membership in the deduplicated list: present in the input and not
already seen. -/
theorem mem_dedupAux (l : List String) : ∀ (seen : List String) (x : String),
    x ∈ dedupAux seen l ↔ x ∈ l ∧ x ∉ seen := by
  induction l with
  | nil => intro seen x; simp [dedupAux]
  | cons a t ih =>
    intro seen x
    by_cases ha : a ∈ seen
    · rw [dedupAux, if_pos ha, ih, List.mem_cons]
      constructor
      · rintro ⟨h1, h2⟩; exact ⟨Or.inr h1, h2⟩
      · rintro ⟨h1 | h1, h2⟩
        · exact absurd (h1 ▸ ha) h2
        · exact ⟨h1, h2⟩
    · rw [dedupAux, if_neg ha, List.mem_cons, ih, List.mem_cons]
      by_cases hxa : x = a
      · subst hxa
        simp [ha]
      · simp [hxa]

/-- The deduplicated list has no duplicates. -/
theorem nodup_dedupAux (l : List String) : ∀ seen : List String,
    (dedupAux seen l).Nodup := by
  induction l with
  | nil => intro seen; simp [dedupAux]
  | cons a t ih =>
    intro seen
    by_cases ha : a ∈ seen
    · rw [dedupAux, if_pos ha]; exact ih seen
    · rw [dedupAux, if_neg ha, List.nodup_cons]
      refine ⟨fun hmem => ?_, ih _⟩
      rw [mem_dedupAux] at hmem
      exact hmem.2 (List.mem_cons_self a seen)

/-- The deduplicated list is an ordered sublist of the input. -/
theorem dedupAux_sublist (l : List String) : ∀ seen : List String,
    (dedupAux seen l).Sublist l := by
  induction l with
  | nil => intro seen; simp [dedupAux]
  | cons a t ih =>
    intro seen
    by_cases ha : a ∈ seen
    · rw [dedupAux, if_pos ha]; exact (ih seen).cons a
    · rw [dedupAux, if_neg ha]; exact (ih _).cons₂ a

/-- Replicated already-seen elements deduplicate to nothing. -/
theorem dedupAux_replicate_mem (x : String) (seen : List String) (hx : x ∈ seen) :
    ∀ n : Nat, dedupAux seen (List.replicate n x) = [] := by
  intro n
  induction n with
  | zero => simp [List.replicate, dedupAux]
  | succ n ih => rw [List.replicate_succ, dedupAux, if_pos hx]; exact ih

/-- A non-empty run of one repeated element deduplicates to a singleton. -/
theorem dedupFirst_replicate (n : Nat) (x : String) :
    dedupFirst (List.replicate (n + 1) x) = [x] := by
  rw [dedupFirst, List.replicate_succ, dedupAux, if_neg (List.not_mem_nil x),
    dedupAux_replicate_mem x [x] (List.mem_singleton_self x) n]

/-- Deduplication returns the empty list only on the empty list. -/
theorem dedupFirst_nil_iff (l : List String) : dedupFirst l = [] ↔ l = [] := by
  cases l with
  | nil => simp [dedupFirst, dedupAux]
  | cons a t => simp [dedupFirst, dedupAux]

/-- C7: the identifier extractor deduplicates while preserving first-seen
order — whenever the raw findall over the searched text (message text plus
resolved t.co links) is the non-empty list `ids`, `extract_tweet_ids`
returns its first-occurrence deduplication: a duplicate-free ordered
sublist of `ids` containing exactly the identifiers of `ids`, and a text
whose matches are one identifier repeated `n + 1` times yields exactly
that singleton. -/
theorem extract_tweet_ids_dedup (net : Net) (text : String) (ids : List String)
    (h : findTweetIds (text ++ unshortened_links net text) = ids) (hne : ids ≠ []) :
    ∃ l, extract_tweet_ids net text = some l ∧ l = dedupFirst ids ∧ l.Nodup ∧
      l.Sublist ids ∧ (∀ x, x ∈ l ↔ x ∈ ids) ∧
      ∀ x n, ids = List.replicate (n + 1) x → l = [x] := by
  refine ⟨dedupFirst ids, ?_, rfl, nodup_dedupAux ids [], dedupAux_sublist ids [], ?_, ?_⟩
  · rw [extract_tweet_ids, h]
    rw [if_neg ?_]
    intro hemp
    rw [List.isEmpty_iff, dedupFirst_nil_iff] at hemp
    exact hne hemp
  · intro x
    rw [dedupFirst, mem_dedupAux]
    simp
  · intro x n hrep
    rw [hrep, dedupFirst_replicate]

/-- C7 witness: the spec's own scenario text, containing the single
identifier 123456. -/
theorem extract_tweet_ids_dedup_witness :
    extract_tweet_ids net0 "check https://x.com/alice/status/123456" = some ["123456"] ∧
    (["123456"] : List String).Nodup ∧
    (["123456"] : List String).Sublist ["123456"] := by
  obtain ⟨l, h1, h2, h3, h4, h5, h6⟩ :=
    extract_tweet_ids_dedup net0 "check https://x.com/alice/status/123456" ["123456"]
      (by decide) (by decide)
  have hl : l = ["123456"] := by rw [h2]; decide
  subst hl
  exact ⟨h1, h3, h4⟩

/-- C8: when the searched text has zero matches the extractor returns
`none`, and it can never return the empty list. -/
theorem extract_tweet_ids_none (net : Net) (text : String) :
    (findTweetIds (text ++ unshortened_links net text) = [] →
      extract_tweet_ids net text = none) ∧
    extract_tweet_ids net text ≠ some [] := by
  constructor
  · intro h
    rw [extract_tweet_ids, h]
    rfl
  · intro hc
    rw [extract_tweet_ids] at hc
    by_cases he : (dedupFirst (findTweetIds (text ++ unshortened_links net text))).isEmpty
    · rw [if_pos he] at hc
      exact Option.noConfusion hc
    · rw [if_neg he] at hc
      have hnil := (Option.some.injEq _ _).mp hc
      rw [hnil] at he
      exact he rfl

/-- C8 witness: a text with no links maps to `none`, not `some []`. -/
theorem extract_tweet_ids_none_witness :
    extract_tweet_ids net0 "hello" = none ∧ extract_tweet_ids net0 "hello" ≠ some [] := by
  have h := extract_tweet_ids_none net0 "hello"
  exact ⟨h.1 (by decide), h.2⟩

/-- Bucket sizes add up to the number of descriptors with a recognized
type. -/
theorem countP_type_split (l : List MediaItem) :
    (l.countP fun m => m.type == "image") + (l.countP fun m => m.type == "gif") +
      (l.countP fun m => m.type == "video") =
      l.countP fun m => m.type == "image" || m.type == "gif" || m.type == "video" := by
  induction l with
  | nil => simp
  | cons a t ih =>
    simp only [List.countP_cons]
    cases hb1 : (a.type == "image") with
    | true =>
      have e1 := eq_of_beq hb1
      have hb2 : (a.type == "gif") = false := by rw [e1]; decide
      have hb3 : (a.type == "video") = false := by rw [e1]; decide
      simp [hb1, hb2, hb3]
      omega
    | false =>
      cases hb2 : (a.type == "gif") with
      | true =>
        have e2 := eq_of_beq hb2
        have hb3 : (a.type == "video") = false := by rw [e2]; decide
        simp [hb1, hb2, hb3]
        omega
      | false =>
        cases hb3 : (a.type == "video") with
        | true =>
          simp [hb1, hb2, hb3]
          omega
        | false =>
          simp [hb1, hb2, hb3]
          omega

/-- C6 (amended): `get_media` is a pure order-preserving partition of the
descriptors with a recognized type — each bucket is an ordered sublist of
the input, the bucket sizes add up to the number of descriptors typed
image/gif/video, and when every descriptor's type is recognized the sizes
add up to the input length; descriptors of any other type fall into no
bucket. -/
theorem get_media_partition (l : List MediaItem) :
    (get_media l).1.Sublist l ∧ (get_media l).2.1.Sublist l ∧
    (get_media l).2.2.Sublist l ∧
    ((get_media l).1.length + (get_media l).2.1.length + (get_media l).2.2.length =
      l.countP fun m => m.type == "image" || m.type == "gif" || m.type == "video") ∧
    ((∀ m ∈ l, m.type = "image" ∨ m.type = "gif" ∨ m.type = "video") →
      (get_media l).1.length + (get_media l).2.1.length + (get_media l).2.2.length =
        l.length) := by
  have hlen : (get_media l).1.length + (get_media l).2.1.length +
      (get_media l).2.2.length =
      l.countP fun m => m.type == "image" || m.type == "gif" || m.type == "video" := by
    rw [get_media]
    simp only [← List.countP_eq_length_filter]
    exact countP_type_split l
  refine ⟨List.filter_sublist l, List.filter_sublist l, List.filter_sublist l, hlen, ?_⟩
  intro h
  rw [hlen]
  rw [List.countP_eq_length]
  intro m hm
  rcases h m hm with e | e | e <;> simp [e]

/-- C6 counterexample: a descriptor whose `type` is not one of the three
recognized strings lands in no bucket, so the partition is not exhaustive
and the bucket sizes do not add up to the input length. -/
theorem get_media_not_exhaustive_counterexample :
    get_media [{ type := "unknown", url := "u", thumbnail_url := "t" }] = ([], [], []) ∧
    (get_media [{ type := "unknown", url := "u", thumbnail_url := "t" }]).1.length +
      (get_media [{ type := "unknown", url := "u", thumbnail_url := "t" }]).2.1.length +
      (get_media [{ type := "unknown", url := "u", thumbnail_url := "t" }]).2.2.length ≠
      [({ type := "unknown", url := "u", thumbnail_url := "t" } : MediaItem)].length := by
  constructor <;> decide

/-- C6 witness: on a single recognized descriptor the bucket sizes add up
to the input length. -/
theorem get_media_partition_witness :
    (get_media [photoA]).1.length + (get_media [photoA]).2.1.length +
      (get_media [photoA]).2.2.length = 1 := by
  have h := (get_media_partition [photoA]).2.2.2.2
  simpa using h (by decide)

/-- C10: `increase_context_counter` adds exactly 1 to the named counter
and leaves the other two unchanged; when the stats record is absent it is
first initialized to zeros, so the named counter ends at 1 and the other
two at 0. -/
theorem increase_context_counter_frame (bd : BotData) (c : ContextCounters) :
    counterVal (increase_context_counter bd c) c =
      counterVal (bd.getD init_stats) c + 1 ∧
    (∀ c2, c2 ≠ c →
      counterVal (increase_context_counter bd c) c2 =
        counterVal (bd.getD init_stats) c2) ∧
    (bd = none →
      counterVal (increase_context_counter bd c) c = 1 ∧
      ∀ c2, c2 ≠ c → counterVal (increase_context_counter bd c) c2 = 0) := by
  refine ⟨?_, ?_, ?_⟩
  · cases c <;> rfl
  · intro c2 h
    cases c <;> cases c2 <;> first | exact absurd rfl h | rfl
  · rintro rfl
    refine ⟨?_, ?_⟩
    · cases c <;> rfl
    · intro c2 h
      cases c <;> cases c2 <;> first | exact absurd rfl h | rfl

/-- C10 witness: incrementing `media_downloaded` on an absent stats record
gives 1 there and 0 on `commands_handled`. -/
theorem increase_context_counter_frame_witness :
    counterVal (increase_context_counter none .media_downloaded) .media_downloaded = 1 ∧
    counterVal (increase_context_counter none .media_downloaded) .commands_handled = 0 := by
  have h := increase_context_counter_frame none .media_downloaded
  exact ⟨(h.2.2 rfl).1, (h.2.2 rfl).2 .commands_handled (by decide)⟩

/-- C4 counterexample: when the HEAD probe of the rewritten URL fails at
the connection level instead of with an HTTP status, `get_photo_url`
raises to its caller — the result is an exception, not the original URL
and not the rewritten URL. -/
theorem get_photo_url_raises_counterexample :
    get_photo_url netConn "http://pbs/img" = .error .connError ∧
    (Except.error PyErr.connError ≠ (Except.ok "http://pbs/img" : Except PyErr String)) ∧
    (Except.error PyErr.connError ≠
      (Except.ok (set_orig_query "http://pbs/img") : Except PyErr String)) := by
  refine ⟨rfl, by decide, by decide⟩

/-- C4 (amended): for every HTTP response of the existence probe,
`get_photo_url` never raises — an error status (4xx/5xx, the statuses
`raise_for_status` turns into the caught `HTTPError`) yields the original
URL unchanged and any other status yields the rewritten URL; only a
connection-level probe failure propagates as an exception. -/
theorem get_photo_url_fallback (net : Net) (url : String) :
    (∀ st, net.photoProbe (set_orig_query url) = .response st →
      get_photo_url net url =
        .ok (if 400 ≤ st ∧ st < 600 then url else set_orig_query url)) ∧
    (net.photoProbe (set_orig_query url) = .connError →
      get_photo_url net url = .error .connError) := by
  constructor
  · intro st h
    simp only [get_photo_url, h]
    split <;> rfl
  · intro h
    simp only [get_photo_url, h]

/-- C4 witness: a 404 probe keeps the original URL, a good probe upgrades. -/
theorem get_photo_url_fallback_witness :
    get_photo_url netProbe404 "pa" = .ok "pa" ∧
    get_photo_url netConn "pa" = .error .connError := by
  constructor
  · have h := (get_photo_url_fallback netProbe404 "pa").1 404 rfl
    norm_num at h
    exact h
  · exact (get_photo_url_fallback netConn "pa").2 rfl

/-- C3: the video size gate is inclusive at 20 MiB — a probe reporting
exactly 20971520 bytes takes the in-line delivery branch in both the
command sender and the inline resolver, while 20971521 bytes takes the
too-large fallback branch in both. -/
theorem size_gate_inclusive (net1 net2 : Net) (v : MediaItem) (bd : BotData)
    (h1 : net1.videoProbe v.url = .response 200 (some (20 * 1024 * 1024)))
    (hsend : net1.sendVideo v.url = true)
    (h2 : net2.videoProbe v.url = .response 200 (some (20 * 1024 * 1024 + 1))) :
    (command_send_videos net1 [v] bd).1 = [Sent.video v.url] ∧
    (get_videos net1 [v] bd).1 =
      .ok [InlineResult.video v.thumbnail_url v.url "Video" "video/mp4"] ∧
    (command_send_videos net2 [v] bd).1 = [Sent.text (video_too_large_text v.url)] ∧
    (get_videos net2 [v] bd).1 =
      .ok [InlineResult.article "Video too big!" "Video too big"] := by
  refine ⟨?_, ?_, ?_, ?_⟩
  · norm_num [command_send_videos, h1, hsend]
  · norm_num [get_videos, h1]
  · norm_num [command_send_videos, h2]
  · norm_num [get_videos, h2]

/-- C3 witness: the boundary behaviour at the concrete sizes 20971520 and
20971521 on the sample video. -/
theorem size_gate_inclusive_witness :
    (command_send_videos (netSz (20 * 1024 * 1024)) [vidV] (some init_stats)).1 =
      [Sent.video "vu"] ∧
    (get_videos (netSz (20 * 1024 * 1024)) [vidV] (some init_stats)).1 =
      .ok [InlineResult.video "vt" "vu" "Video" "video/mp4"] ∧
    (command_send_videos (netSz (20 * 1024 * 1024 + 1)) [vidV] (some init_stats)).1 =
      [Sent.text (video_too_large_text "vu")] ∧
    (get_videos (netSz (20 * 1024 * 1024 + 1)) [vidV] (some init_stats)).1 =
      .ok [InlineResult.article "Video too big!" "Video too big"] :=
  size_gate_inclusive (netSz (20 * 1024 * 1024)) (netSz (20 * 1024 * 1024 + 1)) vidV
    (some init_stats) rfl rfl rfl

/-- Appending a string makes it a substring of the result. -/
theorem strContains_append_self (a b : String) : strContains (a ++ b) b = true := by
  rw [strContains, List.any_eq_true]
  refine ⟨b.toList, ?_, ?_⟩
  · rw [List.mem_tails]
    show b.data <:+ (a ++ b).data
    rw [String.data_append]
    exact List.suffix_append a.data b.data
  · exact List.isPrefixOf_iff_prefix.mpr (List.prefix_refl b.toList)

/-- C5 counterexample: in inline-query mode a video one byte above the
threshold resolves to the constant `Video too big` article, whose title
and message text do not contain the raw video URL. -/
theorem inline_too_large_no_url_counterexample :
    (get_videos netBig [vidBig] (some init_stats)).1 =
      .ok [InlineResult.article "Video too big!" "Video too big"] ∧
    strContains "Video too big!" "http://v/big.mp4" = false ∧
    strContains "Video too big" "http://v/big.mp4" = false := by
  refine ⟨by decide, by decide, by decide⟩

/-- C5 (amended): a video above the 20 MiB threshold is delivered as a
too-large fallback in both modes, but only command-reply mode presents
the raw URL — its text message contains the URL, while inline-query mode
answers the fixed `Video too big` article without the URL. -/
theorem too_large_url_delivery (net : Net) (v : MediaItem) (bd : BotData) (size : Nat)
    (h : net.videoProbe v.url = .response 200 (some size))
    (hbig : 20 * 1024 * 1024 < size) :
    (command_send_videos net [v] bd).1 = [Sent.text (video_too_large_text v.url)] ∧
    strContains (video_too_large_text v.url) v.url = true ∧
    (get_videos net [v] bd).1 =
      .ok [InlineResult.article "Video too big!" "Video too big"] := by
  have hle : ¬ size ≤ 20 * 1024 * 1024 := Nat.not_le.mpr hbig
  refine ⟨?_, ?_, ?_⟩
  · norm_num [command_send_videos, h, hle]
  · exact strContains_append_self "Video is too large for Telegram upload. Link:\n" v.url
  · norm_num [get_videos, h, hle]

/-- C5 witness: the amended statement at the concrete oversized video. -/
theorem too_large_url_delivery_witness :
    (command_send_videos netBig [vidBig] (some init_stats)).1 =
      [Sent.text (video_too_large_text "http://v/big.mp4")] ∧
    strContains (video_too_large_text "http://v/big.mp4") "http://v/big.mp4" = true ∧
    (get_videos netBig [vidBig] (some init_stats)).1 =
      .ok [InlineResult.article "Video too big!" "Video too big"] :=
  too_large_url_delivery netBig vidBig (some init_stats) (20 * 1024 * 1024 + 1) rfl
    (by norm_num)

/-- A loop pass over identifiers that all fail to scrape or scrape to an
empty descriptor list leaves the accumulated results and counters
untouched. -/
theorem inline_loop_keep (net : Net) (ids : List String) (r : List InlineResult)
    (bd : BotData)
    (h : ∀ i ∈ ids, (∃ e, net.scrape i = .error e) ∨ net.scrape i = .ok []) :
    ids.foldl (inline_step net) (r, bd) = (r, bd) := by
  induction ids with
  | nil => rfl
  | cons i t ih =>
    have hi := h i (List.mem_cons_self i t)
    have hstep : inline_step net (r, bd) i = (r, bd) := by
      rcases hi with ⟨e, he⟩ | he <;> simp [inline_step, he]
    rw [List.foldl_cons, hstep]
    exact ih (fun j hj => h j (List.mem_cons_of_mem i hj))

/-- C9: an inline query whose identifiers all fail to scrape or carry no
media answers with exactly the one `nothing found` placeholder article,
so the answered list is not empty. -/
theorem inline_query_nothing_found (net : Net) (query : String) (bd : BotData)
    (ids : List String) (hq : query ≠ "")
    (hex : extract_tweet_ids net query = some ids)
    (h : ∀ i ∈ ids, (∃ e, net.scrape i = .error e) ∨ net.scrape i = .ok []) :
    (inline_query net query bd).1 =
      .ok (some [InlineResult.article nothing_found_text nothing_found_text]) ∧
    ∀ answers, (inline_query net query bd).1 = .ok (some answers) → answers ≠ [] := by
  have hfold := inline_loop_keep net ids [] bd h
  have hmain : (inline_query net query bd).1 =
      .ok (some [InlineResult.article nothing_found_text nothing_found_text]) := by
    simp [inline_query, hq, hex, hfold]
  refine ⟨hmain, fun answers ha => ?_⟩
  rw [hmain] at ha
  simp only [Except.ok.injEq, Option.some.injEq] at ha
  rw [← ha]
  decide

/-- C9 witness: a query with one identifier whose tweet has no media. -/
theorem inline_query_nothing_found_witness :
    (inline_query net0 "x.com/a/status/1" (some init_stats)).1 =
      .ok (some [InlineResult.article nothing_found_text nothing_found_text]) ∧
    [InlineResult.article nothing_found_text nothing_found_text] ≠ [] := by
  have h := inline_query_nothing_found net0 "x.com/a/status/1" (some init_stats) ["1"]
    (by decide) (by decide) (fun i hi => Or.inr rfl)
  exact ⟨h.1, h.2 _ h.1⟩

/-- A loop step on an identifier that scrapes to non-empty media whose
inline resolution succeeds replaces the accumulated results. -/
theorem inline_step_yield (net : Net) (acc : List InlineResult × BotData) (i : String)
    (media : List MediaItem) (r : List InlineResult)
    (hs : net.scrape i = .ok media) (hm : media.isEmpty = false)
    (hr : ∀ b : BotData, (get_media_for_inline net media b).1 = .ok r) :
    (inline_step net acc i).1 = r := by
  obtain ⟨res, bd⟩ := acc
  have h2 := hr bd
  rcases hx : get_media_for_inline net media bd with ⟨e_or, bd1⟩
  rw [hx] at h2
  change e_or = Except.ok r at h2
  subst h2
  simp [inline_step, hs, hm, hx]

/-- C1 counterexample: with tweet 1 resolving to photo `pa` and tweet 2 to
photo `pb`, the inline answer is tweet 2's decision, not tweet 1's — the
loop does not stop at the first identifier that yields an asset. -/
theorem inline_first_stop_counterexample :
    (inline_query netC1 "x.com/a/status/1 x.com/a/status/2" (some init_stats)).1 =
      .ok (some [InlineResult.photo "pb" "pb"]) ∧
    (inline_query netC1 "x.com/a/status/1 x.com/a/status/2" (some init_stats)).1 ≠
      .ok (some [InlineResult.photo "pa" "pa"]) := by
  constructor <;> decide

/-- C1 (amended): the inline loop runs over all identifiers without
stopping; each identifier whose scrape yields non-empty media overwrites
the result list, so the answer consists of the decisions of the last such
identifier (here: the last one, `i`, followed only by identifiers that
fail to scrape or carry no media). -/
theorem inline_query_last_yield (net : Net) (query : String) (bd : BotData)
    (ids1 ids2 : List String) (i : String) (media : List MediaItem)
    (r : List InlineResult) (hq : query ≠ "")
    (hex : extract_tweet_ids net query = some (ids1 ++ i :: ids2))
    (hs : net.scrape i = .ok media) (hm : media.isEmpty = false)
    (hr : ∀ b : BotData, (get_media_for_inline net media b).1 = .ok r)
    (hrne : r.isEmpty = false)
    (h2 : ∀ j ∈ ids2, (∃ e, net.scrape j = .error e) ∨ net.scrape j = .ok []) :
    (inline_query net query bd).1 = .ok (some r) := by
  rcases hx : inline_step net (ids1.foldl (inline_step net) ([], bd)) i with ⟨rr, bdX⟩
  have hrr : rr = r := by
    have h := inline_step_yield net (ids1.foldl (inline_step net) ([], bd)) i media r
      hs hm hr
    rw [hx] at h
    exact h
  subst hrr
  have hsplit : (ids1 ++ i :: ids2).foldl (inline_step net) ([], bd) = (rr, bdX) := by
    rw [List.foldl_append, List.foldl_cons, hx]
    exact inline_loop_keep net ids2 rr bdX h2
  simp [inline_query, hq, hex, hsplit, hrne]

/-- C1 amended witness: identifier 9 fails, identifier 1 yields photo
`pa`, identifier 2 has no media — the answer is identifier 1's decision. -/
theorem inline_query_last_yield_witness :
    (inline_query netL "x.com/a/status/9 x.com/a/status/1 x.com/a/status/2"
      (some init_stats)).1 = .ok (some [InlineResult.photo "pa" "pa"]) := by
  refine inline_query_last_yield netL "x.com/a/status/9 x.com/a/status/1 x.com/a/status/2"
    (some init_stats) ["9"] ["2"] "1" [photoA] [InlineResult.photo "pa" "pa"]
    (by decide) (by decide) rfl rfl ?_ rfl ?_
  · intro b
    rfl
  · intro j hj
    rw [List.mem_singleton] at hj
    subst hj
    right
    rfl

/-- C2 counterexample: a valid command URL whose only identifier fails to
scrape makes `grab_command` abort with the exception after sending only
the echo text — no generic failure text reaches the user and
`commands_handled` is not incremented. -/
theorem grab_command_upstream_counterexample :
    grab_command netC1 "https://x.com/a/status/5" (some init_stats) =
      (.error .httpError, [Sent.text "tweet: https://x.com/a/status/5"],
        some init_stats) ∧
    (grab_command netC1 "https://x.com/a/status/5" (some init_stats)).2.2 ≠
      some { init_stats with commands_handled := init_stats.commands_handled + 1 } := by
  constructor <;> decide

/-- C2 (amended): when the only identifier's metadata fetch raises, the
exception propagates out of `grab_command`: the loop aborts, the user has
received only the echo text (no failure notice), the counters are
unchanged, and the error is left to the application-level error handler. -/
theorem grab_command_upstream_aborts (net : Net) (url : String) (bd : BotData)
    (id : String) (e : PyErr)
    (hmatch : correct_twitter_match url = true)
    (hex : extract_tweet_ids net url = some [id])
    (hs : net.scrape id = .error e) :
    grab_command net url bd = (.error e, [Sent.text ("tweet: " ++ url)], bd) := by
  simp [grab_command, hmatch, hex, grab_loop, hs]

/-- C2 amended witness: the concrete aborting run. -/
theorem grab_command_upstream_aborts_witness :
    grab_command netC1 "https://x.com/a/status/5" (some init_stats) =
      (.error .httpError, [Sent.text ("tweet: " ++ "https://x.com/a/status/5")],
        some init_stats) :=
  grab_command_upstream_aborts netC1 "https://x.com/a/status/5" (some init_stats) "5"
    .httpError (by decide) (by decide) (by decide)

end TwitterBot
